import Mathlib

/-!
Verification of the Battleship backend game engine against its specification.

The definitions below are a shallow embedding of the TypeScript sources:
  - `src/backend/src/models/game.constants.ts` (board size, fleet constants)
  - `src/backend/src/utils/coordinate.util.ts`  (coordinate helpers)
  - `src/backend/src/utils/ship.util.ts`        (placement validator, hit logic)
  - `src/backend/src/utils/validation.util.ts`  (coordinate display parsing)
  - `src/backend/src/services/game.service.ts`  (room state machine)
  - the socket room handler (`handleJoinRoom` / `handleCreateRoom`)

JavaScript numbers that can come from the client are modelled as `Int`;
JS arrays as `List`; JS objects used as string-keyed maps as association
lists (`List (String × α)`) with replace-or-append update, which matches
object-key update semantics when keys are unique (all maps here are built
from the empty object via such updates).  Mutation of the fetched room
object followed by a single `updateGameRoom` write-back is modelled as a
pure function from the old room to the new room; error paths that return
before any field assignment leave the stored room unchanged, which the
pure embedding reflects by returning an error without a room.
-/

namespace Battleship

deriving instance DecidableEq for Except

/-- `BOARD_SIZE` from game.constants.ts. -/
def boardSize : Int := 10

/-- `Coordinate` from types/index.ts (the optional display-only `z` field is
never read by the game logic and is omitted). -/
structure Coordinate where
  x : Int
  y : Int
deriving DecidableEq, Repr

/-- `isValidCoordinate` from coordinate.util.ts. -/
def isValidCoordinate (c : Coordinate) : Bool :=
  decide (0 ≤ c.x ∧ c.x < boardSize ∧ 0 ≤ c.y ∧ c.y < boardSize)

/-- `coordinatesEqual` from coordinate.util.ts. -/
def coordinatesEqual (a b : Coordinate) : Bool :=
  decide (a.x = b.x ∧ a.y = b.y)

/-- `coordinateExists` from coordinate.util.ts: `coordArray.some(c => coordinatesEqual(c, coord))`. -/
def coordinateExists (coord : Coordinate) (coordArray : List Coordinate) : Bool :=
  coordArray.any (fun c => coordinatesEqual c coord)

/-- Ship orientation (the `'horizontal' | 'vertical'` union). -/
inductive Orientation where
  | horizontal
  | vertical
deriving DecidableEq, Repr

/-- `generateShipCoordinates` from coordinate.util.ts: `size` cells stepping
+1 in x (horizontal) or +1 in y (vertical); the JS loop `for i in [0, size)`
runs `size.toNat` times for an integer `size`. -/
def generateShipCoordinates (start : Coordinate) (size : Int) (orientation : Orientation) :
    List Coordinate :=
  (List.range size.toNat).map (fun i =>
    match orientation with
    | .horizontal => ⟨start.x + i, start.y⟩
    | .vertical => ⟨start.x, start.y + i⟩)

/-- `allCoordinatesValid` from coordinate.util.ts. -/
def allCoordinatesValid (coordinates : List Coordinate) : Bool :=
  coordinates.all isValidCoordinate

/-- `coordinatesOverlap` from coordinate.util.ts. -/
def coordinatesOverlap (coords1 coords2 : List Coordinate) : Bool :=
  coords1.any (fun c1 => coords2.any (fun c2 => coordinatesEqual c1 c2))

/-- `coordinateToString` from validation.util.ts:
letter = `String.fromCharCode(65 + x)`, number = `y + 1`. -/
def coordinateToString (coord : Coordinate) : String :=
  String.mk [Char.ofNat (65 + coord.x).toNat] ++ toString (coord.y + 1)

/-- The letter class `[A-J]` of the parse regex under the `/i` flag. -/
def isLetterAJ (c : Char) : Bool :=
  (decide ('A' ≤ c) && decide (c ≤ 'J')) || (decide ('a' ≤ c) && decide (c ≤ 'j'))

/-- Decimal value of a digit string, as `parseInt` computes it on `\d{1,2}`. -/
def digitsToNat (ds : List Char) : Nat :=
  ds.foldl (fun acc d => acc * 10 + (d.toNat - 48)) 0

/-- `parseCoordinate` from validation.util.ts: matches `^([A-J])(\d{1,2})$`
case-insensitively, then `x = upper(letter) - 65`, `y = parseInt(digits) - 1`,
and returns the coordinate only if `isValidCoordinate` holds. -/
def parseCoordinate (s : String) : Option Coordinate :=
  match s.data with
  | [] => none
  | c :: ds =>
    if isLetterAJ c && decide (1 ≤ ds.length) && decide (ds.length ≤ 2) && ds.all Char.isDigit then
      let x : Int := (c.toUpper.toNat : Int) - 65
      let y : Int := (digitsToNat ds : Int) - 1
      if isValidCoordinate ⟨x, y⟩ then some ⟨x, y⟩ else none
    else none

/-- Lowercase rendering of a label, character by character (used to state
case-insensitivity of `parseCoordinate`). -/
def lowercase (s : String) : String := String.mk (s.data.map Char.toLower)

/-- One entry of `SHIP_TYPES` from game.constants.ts. -/
structure ShipType where
  name : String
  size : Int
  id : String
deriving DecidableEq, Repr

/-- `Object.values(SHIP_TYPES)` in declaration order, which is also
`REQUIRED_SHIPS` from game.constants.ts. -/
def shipTypes : List ShipType :=
  [⟨"Carrier", 5, "carrier"⟩,
   ⟨"Battleship", 4, "battleship"⟩,
   ⟨"Cruiser", 3, "cruiser"⟩,
   ⟨"Submarine", 3, "submarine"⟩,
   ⟨"Destroyer", 2, "destroyer"⟩]

/-- `REQUIRED_SHIPS` from game.constants.ts. -/
def requiredShips : List ShipType := shipTypes

/-- `Ship` from types/index.ts. -/
structure Ship where
  id : String
  name : String
  size : Int
  coordinates : List Coordinate
  hits : Int
  isSunk : Bool
deriving DecidableEq, Repr

/-- `ShipPlacement` from types/index.ts. -/
structure ShipPlacement where
  id : String
  name : String
  size : Int
  startCoordinate : Coordinate
  orientation : Orientation
deriving DecidableEq, Repr

/-- The generated cells of a placement, as every call site computes them:
`generateShipCoordinates(placement.startCoordinate, placement.size, placement.orientation)`. -/
def cellsOf (p : ShipPlacement) : List Coordinate :=
  generateShipCoordinates p.startCoordinate p.size p.orientation

/-- The error strings produced by ship.util.ts, one constructor per template:
`invalidShipType id` is "Invalid ship type: {id}";
`wrongSize name expected got` is "Ship {name} should have size {expected}, got {got}";
`outOfBounds name` is "Ship {name} goes out of bounds";
`overlaps name other` is "Ship {name} overlaps with {other}";
`wrongCount expected got` is "Expected {expected} ships, got {got}";
`missingOrDuplicate` is "Missing or duplicate ships in placement". -/
inductive VError where
  | invalidShipType (id : String)
  | wrongSize (name : String) (expected got : Int)
  | outOfBounds (name : String)
  | overlaps (name other : String)
  | wrongCount (expected got : Nat)
  | missingOrDuplicate
deriving DecidableEq, Repr

/-- `validateShipPlacement` from ship.util.ts; `none` is `{valid: true}` and
`some e` is `{valid: false, error: e}`. -/
def validateShipPlacement (placement : ShipPlacement) (existingShips : List Ship) :
    Option VError :=
  match shipTypes.find? (fun s => s.id = placement.id) with
  | none => some (.invalidShipType placement.id)
  | some shipType =>
    if placement.size ≠ shipType.size then
      some (.wrongSize placement.name shipType.size placement.size)
    else
      let coordinates := cellsOf placement
      if ¬ allCoordinatesValid coordinates then some (.outOfBounds placement.name)
      else
        match existingShips.find? (fun ex => coordinatesOverlap coordinates ex.coordinates) with
        | some ex => some (.overlaps placement.name ex.name)
        | none => none

/-- The Ship object the validator loop pushes for an accepted placement,
also the element shape of `convertPlacementsToShips`. -/
def shipOfPlacement (p : ShipPlacement) : Ship :=
  ⟨p.id, p.name, p.size, cellsOf p, 0, false⟩

/-- The `for (const placement of placements)` loop of
`validateAllShipPlacements`, carrying the accepted ships so far. -/
def validateLoop (ships : List Ship) (ps : List ShipPlacement) : Option VError :=
  match ps with
  | [] => none
  | p :: rest =>
    match validateShipPlacement p ships with
    | some e => some e
    | none => validateLoop (ships ++ [shipOfPlacement p]) rest

/-- Lexicographic code-point comparison of character lists: the order that
JavaScript `Array.prototype.sort()` applies to the ASCII ship ids. -/
def lexLe : List Char → List Char → Bool
  | [], _ => true
  | _ :: _, [] => false
  | a :: as, b :: bs => if a < b then true else if a = b then lexLe as bs else false

/-- The string order used by the id sort. -/
def strLeP (a b : String) : Prop := lexLe a.data b.data = true

instance : DecidableRel strLeP :=
  fun a b => instDecidableEqBool (lexLe a.data b.data) true

/-- JavaScript `Array.prototype.sort()` on string ids: lexicographic order. -/
def sortIds (l : List String) : List String := l.insertionSort strLeP

/-- `validateAllShipPlacements` from ship.util.ts. -/
def validateAllShipPlacements (placements : List ShipPlacement) : Option VError :=
  if placements.length ≠ requiredShips.length then
    some (.wrongCount requiredShips.length placements.length)
  else if sortIds (placements.map (fun p => p.id)) ≠ sortIds (requiredShips.map (fun s => s.id)) then
    some .missingOrDuplicate
  else validateLoop [] placements

/-- `convertPlacementsToShips` from ship.util.ts. -/
def convertPlacementsToShips (placements : List ShipPlacement) : List Ship :=
  placements.map shipOfPlacement

/-- `checkHit` from ship.util.ts: first ship containing the coordinate. -/
def checkHit (coordinate : Coordinate) (ships : List Ship) : Option Ship :=
  ships.find? (fun ship => coordinateExists coordinate ship.coordinates)

/-- `updateShipAfterHit` from ship.util.ts: increment `hits`; set `isSunk`
when `hits >= size` (the sunk flag is never cleared otherwise). -/
def updateShipAfterHit (ship : Ship) : Ship :=
  let hits := ship.hits + 1
  { ship with hits := hits, isSunk := if hits ≥ ship.size then true else ship.isSunk }

/-- `allShipsSunk` from ship.util.ts: `ships.length > 0 && ships.every(isSunk)`. -/
def allShipsSunk (ships : List Ship) : Bool :=
  decide (ships.length > 0) && ships.all (fun ship => ship.isSunk)

/-- `countRemainingShips` from ship.util.ts. -/
def countRemainingShips (ships : List Ship) : Nat :=
  (ships.filter (fun ship => ¬ ship.isSunk)).length

/-- The `GameRoom.status` union from types/index.ts. -/
inductive GameStatus where
  | waiting
  | setup
  | playing
  | finished
deriving DecidableEq, Repr

/-- One entry of the `gameStats` map: `{shots, hits, misses}`. -/
structure GameStats where
  shots : Int
  hits : Int
  misses : Int
deriving DecidableEq, Repr

/-- `PlayerBoard` from types/index.ts. -/
structure PlayerBoard where
  ships : List Ship
  hits : List Coordinate
  misses : List Coordinate
deriving DecidableEq, Repr

/-- A JS object used as a string-keyed map, as an association list. -/
def lookupM {α : Type} (m : List (String × α)) (k : String) : Option α :=
  (m.find? (fun kv => kv.fst = k)).map (fun kv => kv.snd)

/-- `m[k]` where a missing key reads as the (falsy) default. -/
def lookupD (m : List (String × Bool)) (k : String) (d : Bool) : Bool :=
  (lookupM m k).getD d

/-- `m[k] = v` on a JS object: replace the binding in place if the key is
present (keys are unique in every map built here), append it otherwise. -/
def setK {α : Type} (m : List (String × α)) (k : String) (v : α) : List (String × α) :=
  match m with
  | [] => [(k, v)]
  | kv :: rest => if kv.fst = k then (k, v) :: rest else kv :: setK rest k v

/-- `GameRoom` from types/index.ts.  The optional `matchId` reference is
never read by the state machine and is omitted. -/
structure GameRoom where
  roomCode : String
  player1Id : String
  player2Id : Option String
  status : GameStatus
  currentTurn : Option String
  boards : List (String × PlayerBoard)
  playersReady : List (String × Bool)
  gameStats : List (String × GameStats)
  createdAt : Int
  startedAt : Option Int
  winnerId : Option String
deriving DecidableEq, Repr

/-- `GameService.initializeGameRoom` (`createdAt = Date.now()` passed in). -/
def initializeGameRoom (roomCode : String) (player1Id : String) (now : Int) : GameRoom :=
  ⟨roomCode, player1Id, none, .waiting, none, [], [], [], now, none, none⟩

/-- `GameService.addPlayer2`, acting on the fetched room (the
room-not-found path is the Directory returning no room and is outside the
room transform): it unconditionally sets `player2Id` and `status = 'setup'`. -/
def addPlayer2 (room : GameRoom) (player2Id : String) : GameRoom :=
  { room with player2Id := some player2Id, status := .setup }

/-- The room-state part of the socket handler `handleJoinRoom`: after the
room-code-format and caller-already-in-a-room checks (which do not read the
room value), it rejects a full room, rejects the creator joining their own
room, and otherwise sets `player2Id` and `status = 'setup'` directly.
`room.player2Id &&` is JS truthiness on an optional string, i.e. `isSome`
for the non-empty ids used here. -/
def joinRoom (room : GameRoom) (userId : String) : Except String GameRoom :=
  if room.player2Id.isSome then .error "Room is full"
  else if room.player1Id = userId then .error "Cannot join your own room"
  else .ok { room with player2Id := some userId, status := .setup }

/-- The failure results of `GameService.placeShips` on an existing room:
`validation e` carries the validator error unchanged, `notInRoom` is
"You are not in this room", `alreadyPlaced` is "Ships already placed". -/
inductive PlaceError where
  | validation (e : VError)
  | notInRoom
  | alreadyPlaced
deriving DecidableEq, Repr

/-- `GameService.placeShips` on the fetched room.  `randBelowHalf` is the
outcome of `Math.random() < 0.5` and `now` of `Date.now()`.  The source
validates the placements first, then checks membership and the ready flag,
then installs the board/ready/stats entries, and finally starts the game
if the second player is present and both ready flags (read after the
update) are true. -/
def placeShips (room : GameRoom) (playerId : String) (placements : List ShipPlacement)
    (randBelowHalf : Bool) (now : Int) : Except PlaceError GameRoom :=
  match validateAllShipPlacements placements with
  | some e => .error (.validation e)
  | none =>
    if room.player1Id ≠ playerId ∧ room.player2Id ≠ some playerId then .error .notInRoom
    else if lookupD room.playersReady playerId false then .error .alreadyPlaced
    else
      let ships := convertPlacementsToShips placements
      let ready := setK room.playersReady playerId true
      let base : GameRoom := { room with
        boards := setK room.boards playerId ⟨ships, [], []⟩,
        playersReady := ready,
        gameStats := setK room.gameStats playerId ⟨0, 0, 0⟩ }
      match room.player2Id with
      | some p2 =>
        if lookupD ready room.player1Id false && lookupD ready p2 false then
          .ok { base with
            status := .playing,
            startedAt := some now,
            currentTurn := some (if randBelowHalf then room.player1Id else p2) }
        else .ok base
      | none => .ok base

/-- The failure results of `GameService.fireShot` on an existing room:
`notPlaying` is "Game is not in playing state", `notYourTurn` is
"Not your turn", `defenderBoardNotFound` is "Defender board not found",
`alreadyAttacked` is "Coordinate already attacked".  `statsMissing` marks
the TypeError the source would throw on `gameStats[shooterId]` being
absent (unreachable once a game is playing; the stored room is unchanged
since the write-back is never reached). -/
inductive FireError where
  | notPlaying
  | notYourTurn
  | defenderBoardNotFound
  | statsMissing
  | alreadyAttacked
deriving DecidableEq, Repr

/-- The `'hit' | 'miss' | 'sunk'` union. -/
inductive ShotKind where
  | hit
  | miss
  | sunk
deriving DecidableEq, Repr

/-- `ShotResult` from types/index.ts. -/
structure ShotResult where
  coordinate : Coordinate
  result : ShotKind
  shipName : Option String
  shipId : Option String
  attacker : String
  defender : String
deriving DecidableEq, Repr

/-- `room.player1Id === shooterId ? room.player2Id! : room.player1Id`; a
`none` result models the `undefined` that the non-null assertion lets
through (its board lookup then fails). -/
def defenderIdOf (room : GameRoom) (shooterId : String) : Option String :=
  if room.player1Id = shooterId then room.player2Id else some room.player1Id

/-- `GameService.fireShot` on the fetched room.  All error returns happen
before any field of the room is assigned, so on an error the stored room is
exactly the input room.  On success the defender board receives the shot
coordinate in exactly one of its hit/miss lists (JS `push` appends), the
hit ship (if any) is replaced at its `findIndex` position by
`updateShipAfterHit`, the shooter's counters are bumped, the win check runs
only on the hit path, and the turn flips to the defender unconditionally. -/
def fireShot (room : GameRoom) (shooterId : String) (coordinate : Coordinate) :
    Except FireError (GameRoom × ShotResult) :=
  if room.status ≠ .playing then .error .notPlaying
  else if room.currentTurn ≠ some shooterId then .error .notYourTurn
  else
    match defenderIdOf room shooterId with
    | none => .error .defenderBoardNotFound
    | some defenderId =>
      match lookupM room.boards defenderId with
      | none => .error .defenderBoardNotFound
      | some defenderBoard =>
        if coordinateExists coordinate defenderBoard.hits ||
            coordinateExists coordinate defenderBoard.misses then
          .error .alreadyAttacked
        else
          match lookupM room.gameStats shooterId with
          | none => .error .statsMissing
          | some stats =>
            match checkHit coordinate defenderBoard.ships with
            | some hitShip =>
              let updatedShip := updateShipAfterHit hitShip
              let ships :=
                match defenderBoard.ships.findIdx? (fun s => s.id = hitShip.id) with
                | some i => defenderBoard.ships.set i updatedShip
                | none => defenderBoard.ships
              let board : PlayerBoard := ⟨ships, defenderBoard.hits ++ [coordinate], defenderBoard.misses⟩
              let res : ShotResult :=
                ⟨coordinate, if updatedShip.isSunk then .sunk else .hit,
                 some updatedShip.name, some updatedShip.id, shooterId, defenderId⟩
              let won := allShipsSunk ships
              .ok ({ room with
                boards := setK room.boards defenderId board,
                gameStats := setK room.gameStats shooterId ⟨stats.shots + 1, stats.hits + 1, stats.misses⟩,
                status := if won then .finished else room.status,
                winnerId := if won then some shooterId else room.winnerId,
                currentTurn := some defenderId }, res)
            | none =>
              let board : PlayerBoard := ⟨defenderBoard.ships, defenderBoard.hits, defenderBoard.misses ++ [coordinate]⟩
              let res : ShotResult := ⟨coordinate, .miss, none, none, shooterId, defenderId⟩
              .ok ({ room with
                boards := setK room.boards defenderId board,
                gameStats := setK room.gameStats shooterId ⟨stats.shots + 1, stats.hits, stats.misses + 1⟩,
                currentTurn := some defenderId }, res)

/-- A placement names a fleet member and declares its canonical size. -/
def SizeOk (p : ShipPlacement) : Prop :=
  ∃ t ∈ shipTypes, t.id = p.id ∧ p.size = t.size

/-- All generated cells of a placement are on the board. -/
def BoundsOk (p : ShipPlacement) : Prop :=
  allCoordinatesValid (cellsOf p) = true

/-- A well-formed fleet as the §4.2 claim describes it: exactly 5
placements, id multiset equal to the fleet id set, canonical sizes,
in-bounds cells, pairwise non-overlapping ships. -/
def GoodFleet (ps : List ShipPlacement) : Prop :=
  ps.length = 5 ∧
  (ps.map (fun p => p.id)).Perm (requiredShips.map (fun s => s.id)) ∧
  (∀ p ∈ ps, SizeOk p) ∧
  (∀ p ∈ ps, BoundsOk p) ∧
  ps.Pairwise (fun a b => coordinatesOverlap (cellsOf b) (cellsOf a) = false)

/-- The room stored in the Directory after a `fireShot` call: unchanged on
any error (the write-back is not reached), the updated room on success. -/
def fireShotPost (room : GameRoom) (shooterId : String) (coordinate : Coordinate) : GameRoom :=
  match fireShot room shooterId coordinate with
  | .error _ => room
  | .ok (room2, _) => room2

/-- Play out a list of (shooter, coordinate) actions; a rejected shot
leaves the room unchanged, as `fireShotPost` does. -/
def applyShots (room : GameRoom) (shots : List (String × Coordinate)) : GameRoom :=
  shots.foldl (fun r sc => fireShotPost r sc.fst sc.snd) room

/-- The canonical five-ship fleet used by the repository's service tests:
each ship horizontal, on its own row. -/
def exampleFleet : List ShipPlacement :=
  [⟨"carrier", "Carrier", 5, ⟨0, 0⟩, .horizontal⟩,
   ⟨"battleship", "Battleship", 4, ⟨0, 1⟩, .horizontal⟩,
   ⟨"cruiser", "Cruiser", 3, ⟨0, 2⟩, .horizontal⟩,
   ⟨"submarine", "Submarine", 3, ⟨0, 3⟩, .horizontal⟩,
   ⟨"destroyer", "Destroyer", 2, ⟨0, 4⟩, .horizontal⟩]

/-- The ships built from `exampleFleet`. -/
def exampleShips : List Ship := convertPlacementsToShips exampleFleet

/-- A room in `'playing'` status with both players and full boards. -/
def examplePlayingRoom : GameRoom :=
  ⟨"ROOM01", "A", some "B", .playing, some "A",
   [("A", ⟨exampleShips, [], []⟩), ("B", ⟨exampleShips, [], []⟩)],
   [("A", true), ("B", true)],
   [("A", ⟨0, 0, 0⟩), ("B", ⟨0, 0, 0⟩)],
   0, some 0, none⟩

/-- A full room in `'playing'` status (both player slots taken). -/
def exampleFullRoom : GameRoom :=
  ⟨"ROOM02", "p1", some "p2", .playing, some "p1", [], [], [], 0, some 0, none⟩

/-- A `'finished'` room whose second player slot is empty. -/
def exampleFinishedRoom : GameRoom :=
  ⟨"ROOM03", "p1", none, .finished, none, [], [], [], 0, none, some "p1"⟩

/-- A freshly created room: one player, `'waiting'`, empty maps. -/
def exampleWaitingRoom : GameRoom :=
  ⟨"ROOM04", "p1", none, .waiting, none, [], [], [], 0, none, none⟩

/-- A `'setup'` room where only player 1 has placed ships. -/
def exampleSetupRoom : GameRoom :=
  ⟨"ROOM05", "p1", some "p2", .setup, none,
   [("p1", ⟨exampleShips, [], []⟩)], [("p1", true)], [("p1", ⟨0, 0, 0⟩)],
   0, none, none⟩

/-- A playing room where (0,0) was already attacked (a hit) on B's board. -/
def exampleRepeatRoom : GameRoom :=
  ⟨"ROOM06", "A", some "B", .playing, some "A",
   [("A", ⟨exampleShips, [], []⟩), ("B", ⟨exampleShips, [⟨0, 0⟩], []⟩)],
   [("A", true), ("B", true)],
   [("A", ⟨1, 1, 0⟩), ("B", ⟨0, 0, 0⟩)],
   0, some 0, none⟩

/-- The 17 cells of `exampleShips`, shot by A, interleaved with 16 B misses
into water rows 8 and 9 of A's board: a full winning game for A. -/
def exampleGameShots : List (String × Coordinate) :=
  [("A", ⟨0, 0⟩), ("B", ⟨0, 9⟩), ("A", ⟨1, 0⟩), ("B", ⟨1, 9⟩),
   ("A", ⟨2, 0⟩), ("B", ⟨2, 9⟩), ("A", ⟨3, 0⟩), ("B", ⟨3, 9⟩),
   ("A", ⟨4, 0⟩), ("B", ⟨4, 9⟩), ("A", ⟨0, 1⟩), ("B", ⟨5, 9⟩),
   ("A", ⟨1, 1⟩), ("B", ⟨6, 9⟩), ("A", ⟨2, 1⟩), ("B", ⟨7, 9⟩),
   ("A", ⟨3, 1⟩), ("B", ⟨8, 9⟩), ("A", ⟨0, 2⟩), ("B", ⟨9, 9⟩),
   ("A", ⟨1, 2⟩), ("B", ⟨0, 8⟩), ("A", ⟨2, 2⟩), ("B", ⟨1, 8⟩),
   ("A", ⟨0, 3⟩), ("B", ⟨2, 8⟩), ("A", ⟨1, 3⟩), ("B", ⟨3, 8⟩),
   ("A", ⟨2, 3⟩), ("B", ⟨4, 8⟩), ("A", ⟨0, 4⟩), ("B", ⟨5, 8⟩),
   ("A", ⟨1, 4⟩)]

/-- A playing room where B's one-ship fleet (a destroyer) has one hit left. -/
def exampleAlmostWonRoom : GameRoom :=
  ⟨"ROOM07", "A", some "B", .playing, some "A",
   [("A", ⟨[⟨"destroyer", "Destroyer", 2, [⟨0, 0⟩, ⟨1, 0⟩], 0, false⟩], [], []⟩),
    ("B", ⟨[⟨"destroyer", "Destroyer", 2, [⟨0, 0⟩, ⟨1, 0⟩], 1, false⟩], [⟨0, 0⟩], []⟩)],
   [("A", true), ("B", true)],
   [("A", ⟨1, 1, 0⟩), ("B", ⟨0, 0, 0⟩)],
   0, some 0, none⟩

/-- A playing room whose defender board B holds no ships at all. -/
def exampleNoShipsRoom : GameRoom :=
  ⟨"ROOM08", "A", some "B", .playing, some "A",
   [("A", ⟨[⟨"destroyer", "Destroyer", 2, [⟨0, 0⟩, ⟨1, 0⟩], 0, false⟩], [], []⟩),
    ("B", ⟨[], [], []⟩)],
   [("A", true), ("B", true)],
   [("A", ⟨0, 0, 0⟩), ("B", ⟨0, 0, 0⟩)],
   0, some 0, none⟩

/-- The room after the full winning game. -/
def exampleFinalRoom : GameRoom := applyShots examplePlayingRoom exampleGameShots

theorem lookupM_cons {α : Type} (kv : String × α) (rest : List (String × α)) (k : String) :
    lookupM (kv :: rest) k = if kv.fst = k then some kv.snd else lookupM rest k := by
  unfold lookupM
  by_cases h : kv.fst = k
  · rw [List.find?_cons_of_pos _ (by simpa using h)]
    simp [h]
  · rw [List.find?_cons_of_neg _ (by simpa using h)]
    simp [h]

theorem lookupM_setK_self {α : Type} (m : List (String × α)) (k : String) (v : α) :
    lookupM (setK m k v) k = some v := by
  induction m with
  | nil => simp [setK, lookupM_cons, lookupM]
  | cons kv rest ih =>
    unfold setK
    by_cases h : kv.fst = k
    · simp [h, lookupM_cons]
    · simp [h, lookupM_cons, ih]

theorem lookupM_setK_ne {α : Type} (m : List (String × α)) (k k2 : String) (v : α)
    (h : k2 ≠ k) : lookupM (setK m k v) k2 = lookupM m k2 := by
  induction m with
  | nil =>
    simp only [setK, lookupM_cons, lookupM, List.find?]
    rw [decide_eq_false (fun hh => h (by rw [hh]))]
  | cons kv rest ih =>
    unfold setK
    by_cases hk : kv.fst = k
    · simp only [if_pos hk, lookupM_cons]
      rw [if_neg (fun hh => h hh.symm), if_neg (by rw [hk]; exact fun hh => h hh.symm)]
    · simp only [if_neg hk, lookupM_cons, ih]

theorem lookupD_setK_self (m : List (String × Bool)) (k : String) (v d : Bool) :
    lookupD (setK m k v) k d = v := by
  simp [lookupD, lookupM_setK_self]

theorem lookupD_setK_ne (m : List (String × Bool)) (k k2 : String) (v d : Bool)
    (h : k2 ≠ k) : lookupD (setK m k v) k2 d = lookupD m k2 d := by
  simp [lookupD, lookupM_setK_ne _ _ _ _ h]

theorem lexLe_total : ∀ a b : List Char, lexLe a b = true ∨ lexLe b a = true := by
  intro a
  induction a with
  | nil => intro b; left; rfl
  | cons x xs ih =>
    intro b
    cases b with
    | nil => right; rfl
    | cons y ys =>
      rcases lt_trichotomy x y with h | h | h
      · left; simp [lexLe, h]
      · subst h
        rcases ih ys with h2 | h2
        · left; simp [lexLe, lt_irrefl, h2]
        · right; simp [lexLe, lt_irrefl, h2]
      · right; simp [lexLe, h]

theorem lexLe_trans : ∀ a b c : List Char,
    lexLe a b = true → lexLe b c = true → lexLe a c = true := by
  intro a
  induction a with
  | nil => intro b c _ _; rfl
  | cons x xs ih =>
    intro b c hab hbc
    cases b with
    | nil => simp [lexLe] at hab
    | cons y ys =>
      cases c with
      | nil => simp [lexLe] at hbc
      | cons z zs =>
        simp only [lexLe] at hab hbc ⊢
        rcases lt_trichotomy x y with hxy | hxy | hxy
        · rcases lt_trichotomy y z with hyz | hyz | hyz
          · simp [lt_trans hxy hyz]
          · subst hyz; simp [hxy]
          · simp [hyz, asymm hyz, ne_of_gt hyz] at hbc
        · subst hxy
          rcases lt_trichotomy x z with hyz | hyz | hyz
          · simp [hyz]
          · subst hyz
            simp only [lt_irrefl, if_false, if_pos rfl] at hab hbc ⊢
            exact ih ys zs hab hbc
          · simp [hyz, asymm hyz, ne_of_gt hyz] at hbc
        · simp [asymm hxy, ne_of_gt hxy] at hab

theorem lexLe_antisymm : ∀ a b : List Char,
    lexLe a b = true → lexLe b a = true → a = b := by
  intro a
  induction a with
  | nil =>
    intro b _ hba
    cases b with
    | nil => rfl
    | cons y ys => simp [lexLe] at hba
  | cons x xs ih =>
    intro b hab hba
    cases b with
    | nil => simp [lexLe] at hab
    | cons y ys =>
      simp only [lexLe] at hab hba
      rcases lt_trichotomy x y with hxy | hxy | hxy
      · simp [asymm hxy, ne_of_gt hxy] at hba
      · subst hxy
        simp only [lt_irrefl, if_false, if_pos rfl] at hab hba
        rw [ih ys hab hba]
      · simp [asymm hxy, ne_of_gt hxy] at hab

theorem sortIds_eq_iff_perm (l1 l2 : List String) :
    sortIds l1 = sortIds l2 ↔ l1.Perm l2 := by
  letI : IsTotal String strLeP := ⟨fun a b => lexLe_total a.data b.data⟩
  letI : IsTrans String strLeP := ⟨fun a b c => lexLe_trans a.data b.data c.data⟩
  letI : IsAntisymm String strLeP :=
    ⟨fun a b hab hba => by
      cases a; cases b
      exact congrArg String.mk (lexLe_antisymm _ _ hab hba)⟩
  constructor
  · intro h
    have h2 : (List.insertionSort strLeP l1).Perm (List.insertionSort strLeP l2) := by
      unfold sortIds at h
      rw [h]
    exact ((List.perm_insertionSort strLeP l1).symm.trans h2).trans
      (List.perm_insertionSort strLeP l2)
  · intro h
    exact List.eq_of_perm_of_sorted
      (((List.perm_insertionSort strLeP l1).trans h).trans (List.perm_insertionSort strLeP l2).symm)
      (List.sorted_insertionSort strLeP l1) (List.sorted_insertionSort strLeP l2)

theorem shipTypes_id_inj : ∀ t1 ∈ shipTypes, ∀ t2 ∈ shipTypes, t1.id = t2.id → t1 = t2 := by
  decide

theorem validateShipPlacement_none_iff (p : ShipPlacement) (ships : List Ship) :
    validateShipPlacement p ships = none ↔
      SizeOk p ∧ BoundsOk p ∧
        ∀ ex ∈ ships, coordinatesOverlap (cellsOf p) ex.coordinates = false := by
  unfold validateShipPlacement
  cases hf : shipTypes.find? (fun s => s.id = p.id) with
  | none =>
    simp only [List.find?_eq_none] at hf
    constructor
    · intro h; exact absurd h (by simp)
    · rintro ⟨⟨t, ht, hid, _⟩, _, _⟩
      have := hf t ht
      simp [hid] at this
  | some t =>
    have hmem : t ∈ shipTypes := List.mem_of_find?_eq_some hf
    have hid : t.id = p.id := by simpa using List.find?_some hf
    dsimp only
    by_cases hsz : p.size = t.size
    · rw [if_neg (fun hc => hc hsz)]
      by_cases hb : allCoordinatesValid (cellsOf p) = true
      · rw [if_neg (by simp [hb])]
        constructor
        · intro h
          cases hov : ships.find? (fun ex => coordinatesOverlap (cellsOf p) ex.coordinates) with
          | none =>
            refine ⟨⟨t, hmem, hid, hsz⟩, hb, ?_⟩
            intro ex hex
            have := List.find?_eq_none.mp hov ex hex
            simpa using this
          | some ex => rw [hov] at h; exact absurd h (by simp)
        · rintro ⟨_, _, hno⟩
          cases hov : ships.find? (fun ex => coordinatesOverlap (cellsOf p) ex.coordinates) with
          | none => rfl
          | some ex =>
            have hexmem : ex ∈ ships := List.mem_of_find?_eq_some hov
            have : coordinatesOverlap (cellsOf p) ex.coordinates = true := by
              simpa using List.find?_some hov
            rw [hno ex hexmem] at this
            exact absurd this (by simp)
      · rw [if_pos (by simpa using hb)]
        constructor
        · intro h; exact absurd h (by simp)
        · rintro ⟨_, hb2, _⟩; exact absurd hb2 hb
    · rw [if_pos hsz]
      constructor
      · intro h; exact absurd h (by simp)
      · rintro ⟨⟨t2, ht2, hid2, hsz2⟩, _, _⟩
        have : t2 = t := shipTypes_id_inj t2 ht2 t hmem (by rw [hid2, hid])
        rw [this] at hsz2
        exact absurd hsz2 hsz

theorem validateLoop_none_iff : ∀ (ps : List ShipPlacement) (ships : List Ship),
    validateLoop ships ps = none ↔
      ((∀ p ∈ ps, SizeOk p ∧ BoundsOk p) ∧
       (∀ p ∈ ps, ∀ ex ∈ ships, coordinatesOverlap (cellsOf p) ex.coordinates = false) ∧
       ps.Pairwise (fun a b => coordinatesOverlap (cellsOf b) (cellsOf a) = false)) := by
  intro ps
  induction ps with
  | nil => intro ships; simp [validateLoop]
  | cons p rest ih =>
    intro ships
    unfold validateLoop
    cases hv : validateShipPlacement p ships with
    | some e =>
      constructor
      · intro h; exact absurd h (by simp)
      · rintro ⟨hall, hov, _⟩
        have : validateShipPlacement p ships = none :=
          (validateShipPlacement_none_iff p ships).mpr
            ⟨(hall p (by simp)).1, (hall p (by simp)).2, hov p (by simp)⟩
        rw [hv] at this
        exact absurd this (by simp)
    | none =>
      have hp := (validateShipPlacement_none_iff p ships).mp hv
      rw [ih (ships ++ [shipOfPlacement p])]
      constructor
      · rintro ⟨hall, hov, hpw⟩
        refine ⟨?_, ?_, ?_⟩
        · intro q hq
          rcases List.mem_cons.mp hq with h | h
          · subst h; exact ⟨hp.1, hp.2.1⟩
          · exact hall q h
        · intro q hq ex hex
          rcases List.mem_cons.mp hq with h | h
          · subst h; exact hp.2.2 ex hex
          · exact hov q h ex (by simp [hex])
        · rw [List.pairwise_cons]
          refine ⟨?_, hpw⟩
          intro q hq
          have := hov q hq (shipOfPlacement p) (by simp)
          simpa [shipOfPlacement] using this
      · rintro ⟨hall, hov, hpw⟩
        refine ⟨fun q hq => hall q (by simp [hq]), ?_, ?_⟩
        · intro q hq ex hex
          rcases List.mem_append.mp hex with h | h
          · exact hov q (by simp [hq]) ex h
          · rcases List.mem_singleton.mp h with rfl
            have hpc := (List.pairwise_cons.mp hpw).1 q hq
            simpa [shipOfPlacement] using hpc
        · exact (List.pairwise_cons.mp hpw).2

theorem validateLoop_append : ∀ (xs : List ShipPlacement) (ships : List Ship) (ys : List ShipPlacement),
    validateLoop ships (xs ++ ys) =
      match validateLoop ships xs with
      | some e => some e
      | none => validateLoop (ships ++ xs.map shipOfPlacement) ys := by
  intro xs
  induction xs with
  | nil => intro ships ys; simp [validateLoop]
  | cons x rest ih =>
    intro ships ys
    have hstep : validateLoop ships ((x :: rest) ++ ys) =
        match validateShipPlacement x ships with
        | some e => some e
        | none => validateLoop (ships ++ [shipOfPlacement x]) (rest ++ ys) := rfl
    have hstep2 : validateLoop ships (x :: rest) =
        match validateShipPlacement x ships with
        | some e => some e
        | none => validateLoop (ships ++ [shipOfPlacement x]) rest := rfl
    rw [hstep, hstep2]
    cases hv : validateShipPlacement x ships with
    | some e => rfl
    | none =>
      dsimp only
      rw [ih (ships ++ [shipOfPlacement x]) ys]
      have ha : (ships ++ [shipOfPlacement x]) ++ rest.map shipOfPlacement =
          ships ++ (x :: rest).map shipOfPlacement := by simp
      rw [ha]

theorem sortIds_ne_of_not_perm {l1 l2 : List String} (h : ¬ l1.Perm l2) :
    sortIds l1 ≠ sortIds l2 :=
  fun he => h ((sortIds_eq_iff_perm l1 l2).mp he)

theorem validateAllShipPlacements_none_iff (ps : List ShipPlacement) :
    validateAllShipPlacements ps = none ↔ GoodFleet ps := by
  unfold validateAllShipPlacements
  by_cases hlen : ps.length = 5
  · rw [if_neg (fun hc => hc (by rw [hlen]; rfl))]
    by_cases hperm : (ps.map (fun p => p.id)).Perm (requiredShips.map (fun s => s.id))
    · rw [if_neg (fun hc => hc ((sortIds_eq_iff_perm _ _).mpr hperm))]
      rw [validateLoop_none_iff]
      unfold GoodFleet
      constructor
      · rintro ⟨hall, _, hpw⟩
        exact ⟨hlen, hperm, fun p hp => (hall p hp).1, fun p hp => (hall p hp).2, hpw⟩
      · rintro ⟨_, _, hsz, hbd, hpw⟩
        exact ⟨fun p hp => ⟨hsz p hp, hbd p hp⟩, fun p _ ex hex => absurd hex (by simp), hpw⟩
    · rw [if_pos (sortIds_ne_of_not_perm hperm)]
      constructor
      · intro h; exact absurd h (by simp)
      · rintro ⟨_, hperm2, _⟩; exact absurd hperm2 hperm
  · rw [if_pos (fun hc => hlen (by rw [hc]; rfl))]
    constructor
    · intro h; exact absurd h (by simp)
    · rintro ⟨hlen2, _⟩; exact absurd hlen2 hlen

/-- Claim C6: `validateAllShipPlacements` succeeds exactly on the
well-formed fleets (5 placements, id multiset equal to the fleet id set,
canonical sizes, in-bounds, pairwise non-overlapping); the checks run in
the order count, identity multiset, then per placement in input order
(type, size, bounds, overlap against previously accepted ships), and the
first violation's distinct error is reported. -/
theorem claim_C6 :
    (∀ ps, validateAllShipPlacements ps = none ↔ GoodFleet ps) ∧
    (∀ ps, ps.length ≠ 5 →
      validateAllShipPlacements ps = some (.wrongCount 5 ps.length)) ∧
    (∀ ps, ps.length = 5 →
      ¬ (ps.map (fun p => p.id)).Perm (requiredShips.map (fun s => s.id)) →
      validateAllShipPlacements ps = some .missingOrDuplicate) ∧
    (∀ pre p rest e, (pre ++ p :: rest).length = 5 →
      ((pre ++ p :: rest).map (fun q => q.id)).Perm (requiredShips.map (fun s => s.id)) →
      validateLoop [] pre = none →
      validateShipPlacement p (pre.map shipOfPlacement) = some e →
      validateAllShipPlacements (pre ++ p :: rest) = some e) ∧
    (∀ p ships, shipTypes.find? (fun t => t.id = p.id) = none →
      validateShipPlacement p ships = some (.invalidShipType p.id)) ∧
    (∀ p ships t, shipTypes.find? (fun u => u.id = p.id) = some t → p.size ≠ t.size →
      validateShipPlacement p ships = some (.wrongSize p.name t.size p.size)) ∧
    (∀ p ships t, shipTypes.find? (fun u => u.id = p.id) = some t → p.size = t.size →
      allCoordinatesValid (cellsOf p) = false →
      validateShipPlacement p ships = some (.outOfBounds p.name)) ∧
    (∀ p ships t ex, shipTypes.find? (fun u => u.id = p.id) = some t → p.size = t.size →
      allCoordinatesValid (cellsOf p) = true →
      ships.find? (fun v => coordinatesOverlap (cellsOf p) v.coordinates) = some ex →
      validateShipPlacement p ships = some (.overlaps p.name ex.name)) := by
  refine ⟨validateAllShipPlacements_none_iff, ?_, ?_, ?_, ?_, ?_, ?_, ?_⟩
  · intro ps h
    unfold validateAllShipPlacements
    rw [if_pos (fun hc => h (by rw [hc]; rfl))]
    rfl
  · intro ps hlen hperm
    unfold validateAllShipPlacements
    rw [if_neg (fun hc => hc (by rw [hlen]; rfl)), if_pos (sortIds_ne_of_not_perm hperm)]
  · intro pre p rest e hlen hperm hpre hp
    unfold validateAllShipPlacements
    rw [if_neg (fun hc => hc (by rw [hlen]; rfl)),
      if_neg (fun hc => hc ((sortIds_eq_iff_perm _ _).mpr hperm))]
    rw [validateLoop_append pre [] (p :: rest), hpre]
    dsimp only
    have hnil : ([] : List Ship) ++ pre.map shipOfPlacement = pre.map shipOfPlacement :=
      List.nil_append _
    rw [hnil]
    have hstep : validateLoop (pre.map shipOfPlacement) (p :: rest) =
        match validateShipPlacement p (pre.map shipOfPlacement) with
        | some e2 => some e2
        | none => validateLoop (pre.map shipOfPlacement ++ [shipOfPlacement p]) rest := rfl
    rw [hstep, hp]
  · intro p ships hf
    unfold validateShipPlacement
    rw [hf]
  · intro p ships t hf hsz
    unfold validateShipPlacement
    rw [hf]
    dsimp only
    rw [if_pos hsz]
  · intro p ships t hf hsz hb
    unfold validateShipPlacement
    rw [hf]
    dsimp only
    rw [if_neg (fun hc => hc hsz), if_pos (by simp [hb])]
  · intro p ships t ex hf hsz hb hov
    unfold validateShipPlacement
    rw [hf]
    dsimp only
    rw [if_neg (fun hc => hc hsz), if_neg (fun hc => hc hb), hov]

theorem claim_C6_witness :
    validateAllShipPlacements exampleFleet = none ∧
    validateAllShipPlacements [] = some (.wrongCount 5 0) ∧
    validateAllShipPlacements
      [⟨"carrier", "Carrier", 5, ⟨0, 0⟩, .horizontal⟩,
       ⟨"carrier", "Carrier", 5, ⟨0, 1⟩, .horizontal⟩,
       ⟨"cruiser", "Cruiser", 3, ⟨0, 2⟩, .horizontal⟩,
       ⟨"submarine", "Submarine", 3, ⟨0, 3⟩, .horizontal⟩,
       ⟨"destroyer", "Destroyer", 2, ⟨0, 4⟩, .horizontal⟩] = some .missingOrDuplicate ∧
    validateAllShipPlacements
      [⟨"carrier", "Carrier", 5, ⟨0, 0⟩, .horizontal⟩,
       ⟨"battleship", "Battleship", 4, ⟨0, 0⟩, .vertical⟩,
       ⟨"cruiser", "Cruiser", 3, ⟨0, 5⟩, .horizontal⟩,
       ⟨"submarine", "Submarine", 3, ⟨0, 6⟩, .horizontal⟩,
       ⟨"destroyer", "Destroyer", 2, ⟨0, 7⟩, .horizontal⟩] =
      some (.overlaps "Battleship" "Carrier") ∧
    validateShipPlacement ⟨"frigate", "Frigate", 3, ⟨0, 0⟩, .horizontal⟩ [] =
      some (.invalidShipType "frigate") ∧
    validateShipPlacement ⟨"carrier", "Carrier", 4, ⟨0, 0⟩, .horizontal⟩ [] =
      some (.wrongSize "Carrier" 5 4) ∧
    validateShipPlacement ⟨"carrier", "Carrier", 5, ⟨6, 0⟩, .horizontal⟩ [] =
      some (.outOfBounds "Carrier") ∧
    validateShipPlacement ⟨"carrier", "Carrier", 5, ⟨0, 0⟩, .horizontal⟩
      [shipOfPlacement ⟨"battleship", "Battleship", 4, ⟨0, 0⟩, .vertical⟩] =
      some (.overlaps "Carrier" "Battleship") :=
  ⟨(claim_C6.1 exampleFleet).mpr (by unfold GoodFleet SizeOk BoundsOk; decide),
   claim_C6.2.1 [] (by decide),
   claim_C6.2.2.1 _ (by decide) (by decide),
   claim_C6.2.2.2.1 [⟨"carrier", "Carrier", 5, ⟨0, 0⟩, .horizontal⟩]
     ⟨"battleship", "Battleship", 4, ⟨0, 0⟩, .vertical⟩
     [⟨"cruiser", "Cruiser", 3, ⟨0, 5⟩, .horizontal⟩,
      ⟨"submarine", "Submarine", 3, ⟨0, 6⟩, .horizontal⟩,
      ⟨"destroyer", "Destroyer", 2, ⟨0, 7⟩, .horizontal⟩]
     (.overlaps "Battleship" "Carrier") (by decide) (by decide) (by decide) (by decide),
   claim_C6.2.2.2.2.1 ⟨"frigate", "Frigate", 3, ⟨0, 0⟩, .horizontal⟩ [] (by decide),
   claim_C6.2.2.2.2.2.1 ⟨"carrier", "Carrier", 4, ⟨0, 0⟩, .horizontal⟩ []
     ⟨"Carrier", 5, "carrier"⟩ (by decide) (by decide),
   claim_C6.2.2.2.2.2.2.1 ⟨"carrier", "Carrier", 5, ⟨6, 0⟩, .horizontal⟩ []
     ⟨"Carrier", 5, "carrier"⟩ (by decide) (by decide) (by decide),
   claim_C6.2.2.2.2.2.2.2 ⟨"carrier", "Carrier", 5, ⟨0, 0⟩, .horizontal⟩
     [shipOfPlacement ⟨"battleship", "Battleship", 4, ⟨0, 0⟩, .vertical⟩]
     ⟨"Carrier", 5, "carrier"⟩ (shipOfPlacement ⟨"battleship", "Battleship", 4, ⟨0, 0⟩, .vertical⟩)
     (by decide) (by decide) (by decide) (by decide)⟩

/-- Claim C7: `coordinateToString` and `parseCoordinate` are exact inverses
over all 100 valid coordinates, parsing is case-insensitive, every parsed
coordinate is valid, and "A11", "K1", "1A", "" are rejected. -/
theorem claim_C7 :
    (∀ i j : Fin 10,
      parseCoordinate (coordinateToString ⟨(i : Int), (j : Int)⟩) = some ⟨(i : Int), (j : Int)⟩) ∧
    (∀ i j : Fin 10,
      parseCoordinate (lowercase (coordinateToString ⟨(i : Int), (j : Int)⟩)) =
        some ⟨(i : Int), (j : Int)⟩) ∧
    (∀ s : String, ∀ c : Coordinate, parseCoordinate s = some c → isValidCoordinate c = true) ∧
    coordinateToString ⟨0, 0⟩ = "A1" ∧ coordinateToString ⟨9, 9⟩ = "J10" ∧
    coordinateToString ⟨5, 7⟩ = "F8" ∧
    parseCoordinate "A11" = none ∧ parseCoordinate "K1" = none ∧
    parseCoordinate "1A" = none ∧ parseCoordinate "" = none := by
  refine ⟨by decide, by decide, ?_, by decide, by decide, by decide,
    by decide, by decide, by decide, by decide⟩
  intro s c h
  unfold parseCoordinate at h
  rcases hs : s.data with _ | ⟨ch, ds⟩ <;> rw [hs] at h
  · exact absurd h (by simp)
  · dsimp only at h
    split at h
    · split at h
      · cases h
        assumption
      · exact absurd h (by simp)
    · exact absurd h (by simp)

theorem claim_C7_witness : isValidCoordinate ⟨5, 7⟩ = true :=
  claim_C7.2.2.1 "F8" ⟨5, 7⟩ (by decide)

theorem fireShot_ok_inv (room : GameRoom) (s : String) (c : Coordinate)
    (room2 : GameRoom) (res : ShotResult)
    (h : fireShot room s c = .ok (room2, res)) :
    room.status = .playing ∧ room.currentTurn = some s ∧
    ∃ dId dB st, defenderIdOf room s = some dId ∧
      lookupM room.boards dId = some dB ∧
      lookupM room.gameStats s = some st ∧
      (coordinateExists c dB.hits || coordinateExists c dB.misses) = false ∧
      res.attacker = s ∧ res.defender = dId ∧ res.coordinate = c ∧
      room2.currentTurn = some dId ∧
      room2.roomCode = room.roomCode ∧ room2.player1Id = room.player1Id ∧
      room2.player2Id = room.player2Id ∧ room2.playersReady = room.playersReady ∧
      room2.createdAt = room.createdAt ∧ room2.startedAt = room.startedAt ∧
      ((∃ hitShip,
          checkHit c dB.ships = some hitShip ∧
          res.result = (if (updateShipAfterHit hitShip).isSunk then .sunk else .hit) ∧
          ∃ ships2,
            ships2 = (match dB.ships.findIdx? (fun sh => sh.id = hitShip.id) with
              | some i => dB.ships.set i (updateShipAfterHit hitShip)
              | none => dB.ships) ∧
            room2.boards = setK room.boards dId ⟨ships2, dB.hits ++ [c], dB.misses⟩ ∧
            room2.gameStats = setK room.gameStats s ⟨st.shots + 1, st.hits + 1, st.misses⟩ ∧
            room2.status = (if allShipsSunk ships2 then .finished else room.status) ∧
            room2.winnerId = (if allShipsSunk ships2 then some s else room.winnerId)) ∨
       (checkHit c dB.ships = none ∧ res.result = .miss ∧
        room2.boards = setK room.boards dId ⟨dB.ships, dB.hits, dB.misses ++ [c]⟩ ∧
        room2.gameStats = setK room.gameStats s ⟨st.shots + 1, st.hits, st.misses + 1⟩ ∧
        room2.status = room.status ∧ room2.winnerId = room.winnerId)) := by
  unfold fireShot at h
  split at h
  · exact absurd h (by simp)
  · split at h
    · exact absurd h (by simp)
    · rename_i hst hturn
      rw [not_not] at hst hturn
      refine ⟨hst, hturn, ?_⟩
      cases hd : defenderIdOf room s with
      | none => rw [hd] at h; exact absurd h (by simp)
      | some dId =>
        rw [hd] at h
        dsimp only at h
        cases hb : lookupM room.boards dId with
        | none => rw [hb] at h; exact absurd h (by simp)
        | some dB =>
          rw [hb] at h
          dsimp only at h
          split at h
          · exact absurd h (by simp)
          · rename_i hrep
            cases hstats : lookupM room.gameStats s with
            | none => rw [hstats] at h; exact absurd h (by simp)
            | some st =>
              rw [hstats] at h
              dsimp only at h
              refine ⟨dId, dB, st, rfl, hb, rfl, by simpa using hrep, ?_⟩
              cases hch : checkHit c dB.ships with
              | some hitShip =>
                rw [hch] at h
                dsimp only at h
                rw [Except.ok.injEq, Prod.mk.injEq] at h
                obtain ⟨h1, h2⟩ := h
                subst h1
                subst h2
                refine ⟨rfl, rfl, rfl, rfl, rfl, rfl, rfl, rfl, rfl, rfl, ?_⟩
                left
                exact ⟨hitShip, rfl, rfl, _, rfl, rfl, rfl, rfl, rfl⟩
              | none =>
                rw [hch] at h
                dsimp only at h
                rw [Except.ok.injEq, Prod.mk.injEq] at h
                obtain ⟨h1, h2⟩ := h
                subst h1
                subst h2
                refine ⟨rfl, rfl, rfl, rfl, rfl, rfl, rfl, rfl, rfl, rfl, ?_⟩
                right
                exact ⟨rfl, rfl, rfl, rfl, rfl, rfl⟩

/-- Claim C1 counterexample: on a full playing room, `addPlayer2` does not
reject the join; it silently overwrites `player2Id` and re-enters `'setup'`;
and even the guarded handler path admits a joiner into a `'finished'` room
whose second slot is empty, re-entering `'setup'` from a later status. -/
theorem claim_C1_counterexample :
    addPlayer2 exampleFullRoom "p3" ≠ exampleFullRoom ∧
    (addPlayer2 exampleFullRoom "p3").player2Id = some "p3" ∧
    (addPlayer2 exampleFullRoom "p3").status = .setup ∧
    joinRoom exampleFinishedRoom "p9" =
      .ok { exampleFinishedRoom with player2Id := some "p9", status := .setup } := by
  refine ⟨by decide, rfl, rfl, rfl⟩

/-- Claim C1 (amended): the join path `handleJoinRoom` rejects a join, with
the room unchanged, when `player2Id` is already set ("Room is full") or when
the joiner is player1 ("Cannot join your own room"); otherwise it admits the
joiner regardless of the room's status; `addPlayer2` itself performs none of
these checks and unconditionally sets `player2Id` and `status = 'setup'`. -/
theorem claim_C1 :
    (∀ room u p, room.player2Id = some p → joinRoom room u = .error "Room is full") ∧
    (∀ room u, room.player2Id = none → room.player1Id = u →
      joinRoom room u = .error "Cannot join your own room") ∧
    (∀ room u, room.player2Id = none → room.player1Id ≠ u →
      joinRoom room u = .ok { room with player2Id := some u, status := .setup }) ∧
    (∀ room u, addPlayer2 room u = { room with player2Id := some u, status := .setup }) := by
  refine ⟨?_, ?_, ?_, fun room u => rfl⟩
  · intro room u p h
    unfold joinRoom
    rw [if_pos (by rw [h]; rfl)]
  · intro room u h1 h2
    unfold joinRoom
    rw [if_neg (by rw [h1]; simp), if_pos h2]
  · intro room u h1 h2
    unfold joinRoom
    rw [if_neg (by rw [h1]; simp), if_neg h2]

theorem claim_C1_witness :
    joinRoom exampleFullRoom "p3" = .error "Room is full" ∧
    joinRoom exampleWaitingRoom "p1" = .error "Cannot join your own room" ∧
    joinRoom exampleWaitingRoom "p2" =
      .ok { exampleWaitingRoom with player2Id := some "p2", status := .setup } ∧
    addPlayer2 exampleWaitingRoom "p2" =
      { exampleWaitingRoom with player2Id := some "p2", status := .setup } :=
  ⟨claim_C1.1 exampleFullRoom "p3" "p2" rfl,
   claim_C1.2.1 exampleWaitingRoom "p1" rfl rfl,
   claim_C1.2.2.1 exampleWaitingRoom "p2" rfl (by decide),
   claim_C1.2.2.2 exampleWaitingRoom "p2"⟩

/-- Claim C2 counterexample: a caller who is not in the room but submits
invalid placements receives the validator's error, not "not in this room" —
the membership check is not applied before the validator. -/
theorem claim_C2_counterexample :
    placeShips exampleWaitingRoom "stranger" [] true 0 =
      .error (.validation (.wrongCount 5 0)) ∧
    placeShips exampleWaitingRoom "stranger" [] true 0 ≠ .error .notInRoom := by
  refine ⟨rfl, by decide⟩

/-- Claim C2 (amended): `placeShips` runs the §4.2 validator first and
propagates its error unchanged; only when validation passes does a caller
who is neither player1 nor player2 get the "not in this room" error. -/
theorem claim_C2 :
    (∀ room pid ps rand now e, validateAllShipPlacements ps = some e →
      placeShips room pid ps rand now = .error (.validation e)) ∧
    (∀ room pid ps rand now, validateAllShipPlacements ps = none →
      room.player1Id ≠ pid → room.player2Id ≠ some pid →
      placeShips room pid ps rand now = .error .notInRoom) := by
  constructor
  · intro room pid ps rand now e hv
    unfold placeShips
    rw [hv]
  · intro room pid ps rand now hv h1 h2
    unfold placeShips
    rw [hv]
    dsimp only
    rw [if_pos ⟨h1, h2⟩]

theorem claim_C2_witness :
    placeShips exampleWaitingRoom "p1" [] true 0 = .error (.validation (.wrongCount 5 0)) ∧
    placeShips exampleWaitingRoom "stranger" exampleFleet true 0 = .error .notInRoom :=
  ⟨claim_C2.1 exampleWaitingRoom "p1" [] true 0 (.wrongCount 5 0) (by decide),
   claim_C2.2 exampleWaitingRoom "stranger" exampleFleet true 0 (by decide)
     (by decide) (by decide)⟩

/-- Claim C3: in a playing room, a shot by the current-turn player at a
coordinate already present in the defender board's hit or miss set fails
with the "already attacked" error and the stored room is unchanged. -/
theorem claim_C3 (room : GameRoom) (shooterId : String) (coordinate : Coordinate)
    (defenderId : String) (b : PlayerBoard)
    (hst : room.status = .playing) (ht : room.currentTurn = some shooterId)
    (hd : defenderIdOf room shooterId = some defenderId)
    (hb : lookupM room.boards defenderId = some b)
    (hrep : (coordinateExists coordinate b.hits || coordinateExists coordinate b.misses) = true) :
    fireShot room shooterId coordinate = .error .alreadyAttacked ∧
    fireShotPost room shooterId coordinate = room := by
  have h1 : fireShot room shooterId coordinate = .error .alreadyAttacked := by
    unfold fireShot
    rw [if_neg (by rw [hst]; exact fun hc => hc rfl),
      if_neg (by rw [ht]; exact fun hc => hc rfl), hd]
    dsimp only
    rw [hb]
    dsimp only
    rw [if_pos hrep]
  exact ⟨h1, by unfold fireShotPost; rw [h1]⟩

theorem claim_C3_witness :
    fireShot exampleRepeatRoom "A" ⟨0, 0⟩ = .error .alreadyAttacked ∧
    fireShotPost exampleRepeatRoom "A" ⟨0, 0⟩ = exampleRepeatRoom :=
  claim_C3 exampleRepeatRoom "A" ⟨0, 0⟩ "B" ⟨exampleShips, [⟨0, 0⟩], []⟩
    rfl rfl rfl (by decide) (by decide)

/-- Claim C5: every successful `fireShot` sets `currentTurn` to the
defender, the shooter's opponent, unconditionally. -/
theorem claim_C5 (room : GameRoom) (shooterId : String) (coordinate : Coordinate)
    (h : (fireShot room shooterId coordinate).isOk = true) :
    ∃ defenderId, defenderIdOf room shooterId = some defenderId ∧
      (fireShotPost room shooterId coordinate).currentTurn = some defenderId := by
  cases hfs : fireShot room shooterId coordinate with
  | error e => rw [hfs] at h; simp [Except.isOk, Except.toBool] at h
  | ok pr =>
    obtain ⟨room2, res⟩ := pr
    obtain ⟨-, -, dId, dB, st, hd, -, -, -, -, -, -, hturn, -⟩ :=
      fireShot_ok_inv room shooterId coordinate room2 res hfs
    exact ⟨dId, hd, by unfold fireShotPost; rw [hfs]; exact hturn⟩

theorem claim_C5_witness :
    ∃ defenderId, defenderIdOf exampleRepeatRoom "A" = some defenderId ∧
      (fireShotPost exampleRepeatRoom "A" ⟨9, 9⟩).currentTurn = some defenderId :=
  claim_C5 exampleRepeatRoom "A" ⟨9, 9⟩ (by decide)

/-- Claim C9: `placeShips` imposes no room-status precondition — a member
player with an unset ready flag and a valid fleet is accepted while the
room is still `'waiting'` with no second player: the board is created, the
ready flag set and the stats initialized, while status, turn and start
timestamp are untouched. -/
theorem claim_C9 (room : GameRoom) (playerId : String) (ps : List ShipPlacement)
    (rand : Bool) (now : Int)
    (hv : validateAllShipPlacements ps = none)
    (hst : room.status = .waiting) (hp2 : room.player2Id = none)
    (hm : room.player1Id = playerId)
    (hnr : lookupD room.playersReady playerId false = false) :
    ∃ room2, placeShips room playerId ps rand now = .ok room2 ∧
      room2.status = .waiting ∧
      room2.currentTurn = room.currentTurn ∧
      room2.startedAt = room.startedAt ∧
      lookupM room2.boards playerId = some ⟨convertPlacementsToShips ps, [], []⟩ ∧
      lookupD room2.playersReady playerId false = true ∧
      lookupM room2.gameStats playerId = some ⟨0, 0, 0⟩ := by
  unfold placeShips
  rw [hv]
  dsimp only
  rw [if_neg (by rintro ⟨h1, _⟩; exact h1 hm), if_neg (by rw [hnr]; simp), hp2]
  dsimp only
  refine ⟨_, rfl, hst, rfl, rfl, ?_, ?_, ?_⟩
  · exact lookupM_setK_self room.boards playerId ⟨convertPlacementsToShips ps, [], []⟩
  · exact lookupD_setK_self room.playersReady playerId true false
  · exact lookupM_setK_self room.gameStats playerId ⟨0, 0, 0⟩

theorem claim_C9_witness :
    ∃ room2, placeShips exampleWaitingRoom "p1" exampleFleet true 0 = .ok room2 ∧
      room2.status = .waiting ∧
      room2.currentTurn = exampleWaitingRoom.currentTurn ∧
      room2.startedAt = exampleWaitingRoom.startedAt ∧
      lookupM room2.boards "p1" = some ⟨convertPlacementsToShips exampleFleet, [], []⟩ ∧
      lookupD room2.playersReady "p1" false = true ∧
      lookupM room2.gameStats "p1" = some ⟨0, 0, 0⟩ :=
  claim_C9 exampleWaitingRoom "p1" exampleFleet true 0 (by decide) rfl rfl rfl (by decide)

/-- Claim C8: when a `placeShips` call makes the second of the two present
players ready, the room transitions to `'playing'`, the start timestamp is
stamped, and `currentTurn` is player1 exactly when the random draw
`Math.random() < 0.5` is true, player2 otherwise — so the turn is always
one of the two identities and both outcomes occur for some random value. -/
theorem claim_C8 (room : GameRoom) (playerId p2 : String) (ps : List ShipPlacement)
    (rand : Bool) (now : Int)
    (hv : validateAllShipPlacements ps = none)
    (hp2 : room.player2Id = some p2)
    (hnr : lookupD room.playersReady playerId false = false)
    (hcase : (playerId = room.player1Id ∧ lookupD room.playersReady p2 false = true) ∨
      (playerId = p2 ∧ playerId ≠ room.player1Id ∧
        lookupD room.playersReady room.player1Id false = true)) :
    ∃ room2, placeShips room playerId ps rand now = .ok room2 ∧
      room2.status = .playing ∧ room2.startedAt = some now ∧
      room2.currentTurn = some (if rand then room.player1Id else p2) ∧
      (room2.currentTurn = some room.player1Id ∨ room2.currentTurn = some p2) := by
  unfold placeShips
  rw [hv]
  dsimp only
  rw [if_neg (by
    rintro ⟨h1, h2⟩
    rcases hcase with ⟨hid, -⟩ | ⟨hid, -, -⟩
    · exact h1 hid.symm
    · exact h2 (by rw [hp2, hid]))]
  rw [if_neg (by rw [hnr]; simp), hp2]
  dsimp only
  have hg : (lookupD (setK room.playersReady playerId true) room.player1Id false &&
      lookupD (setK room.playersReady playerId true) p2 false) = true := by
    rcases hcase with ⟨hid, hother⟩ | ⟨hid, hne, hother⟩
    · have hne2 : p2 ≠ playerId := by
        intro he
        rw [he, hnr] at hother
        exact absurd hother (by simp)
      rw [← hid, lookupD_setK_self, lookupD_setK_ne _ _ _ _ _ hne2, hother]
      rfl
    · have hne2 : room.player1Id ≠ playerId := fun he => hne he.symm
      rw [← hid, lookupD_setK_self, lookupD_setK_ne _ _ _ _ _ hne2, hother]
      rfl
  rw [if_pos hg]
  refine ⟨_, rfl, rfl, rfl, rfl, ?_⟩
  cases rand
  · right; rfl
  · left; rfl

theorem claim_C8_witness :
    (∃ room2, placeShips exampleSetupRoom "p2" exampleFleet true 0 = .ok room2 ∧
      room2.status = .playing ∧ room2.startedAt = some 0 ∧
      room2.currentTurn = some (if true then exampleSetupRoom.player1Id else "p2") ∧
      (room2.currentTurn = some exampleSetupRoom.player1Id ∨ room2.currentTurn = some "p2")) ∧
    (∃ room2, placeShips exampleSetupRoom "p2" exampleFleet false 0 = .ok room2 ∧
      room2.status = .playing ∧ room2.startedAt = some 0 ∧
      room2.currentTurn = some (if false then exampleSetupRoom.player1Id else "p2") ∧
      (room2.currentTurn = some exampleSetupRoom.player1Id ∨ room2.currentTurn = some "p2")) :=
  ⟨claim_C8 exampleSetupRoom "p2" "p2" exampleFleet true 0 (by decide) rfl (by decide)
     (Or.inr ⟨rfl, by decide, by decide⟩),
   claim_C8 exampleSetupRoom "p2" "p2" exampleFleet false 0 (by decide) rfl (by decide)
     (Or.inr ⟨rfl, by decide, by decide⟩)⟩

set_option maxRecDepth 10000 in
set_option maxHeartbeats 1000000 in
/-- Claim C4: a successful hit after which every defender ship is sunk (and
the defender has at least one ship, which `allShipsSunk` requires) makes the
room `'finished'` with the shooter as winner; a defender board with zero
ships never triggers the win (its shots are all misses, which never run the
win check); in the concrete 33-shot game in which A covers all 17 cells of
B's five ships, the final room is finished with winner A and all of B's
ships sunk, and any further shot on a non-playing room is rejected with the
"not in playing state" error. -/
theorem claim_C4 :
    (∀ room s c room2 res, fireShot room s c = .ok (room2, res) → res.result ≠ .miss →
      ∀ b2, lookupM room2.boards res.defender = some b2 → allShipsSunk b2.ships = true →
      room2.status = .finished ∧ room2.winnerId = some s) ∧
    (∀ room s c room2 res dId dB, fireShot room s c = .ok (room2, res) →
      defenderIdOf room s = some dId → lookupM room.boards dId = some dB → dB.ships = [] →
      room2.status = room.status ∧ room2.winnerId = room.winnerId) ∧
    (exampleFinalRoom.status = .finished ∧ exampleFinalRoom.winnerId = some "A" ∧
      (lookupM exampleFinalRoom.boards "B").map (fun b => allShipsSunk b.ships) = some true) ∧
    (∀ room s c, room.status ≠ .playing → fireShot room s c = .error .notPlaying) ∧
    fireShot exampleFinalRoom "B" ⟨7, 7⟩ = .error .notPlaying := by
  refine ⟨?_, ?_, by decide, ?_, by decide⟩
  · intro room s c room2 res hfs hres b2 hb2 hsunk
    obtain ⟨hst, hturn, dId, dB, st, hd, hb, hstats, hrep, hatk, hdef, hcoord, hctn,
      hrc, hp1, hp2x, hready, hca, hsa, hdis⟩ :=
      fireShot_ok_inv room s c room2 res hfs
    rcases hdis with ⟨hitShip, hch, hresk, ships2, hships2, hbd, hgs, hstq, hwq⟩ |
      ⟨hchn, hresm, hbd, hgs, hstq, hwq⟩
    · rw [hdef, hbd, lookupM_setK_self] at hb2
      rw [Option.some_inj] at hb2
      subst hb2
      dsimp only at hsunk
      constructor
      · rw [hstq, hsunk]
        rfl
      · rw [hwq, hsunk]
        rfl
    · exact absurd hresm hres
  · intro room s c room2 res dId dB hfs hd hb hempty
    obtain ⟨hst, hturn, dId0, dB0, st, hd0, hb0, hstats, hrep, hatk, hdef, hcoord, hctn,
      hrc, hp1, hp2x, hready, hca, hsa, hdis⟩ :=
      fireShot_ok_inv room s c room2 res hfs
    rw [hd] at hd0
    rw [Option.some_inj] at hd0
    subst hd0
    rw [hb] at hb0
    rw [Option.some_inj] at hb0
    subst hb0
    rcases hdis with ⟨hitShip, hch, -⟩ | ⟨-, -, -, -, hstq, hwq⟩
    · rw [hempty] at hch
      simp [checkHit] at hch
    · exact ⟨hstq, hwq⟩
  · intro room s c h
    unfold fireShot
    rw [if_pos h]

theorem claim_C4_witness :
    (({ exampleAlmostWonRoom with
        status := .finished, winnerId := some "A", currentTurn := some "B",
        boards := [("A", ⟨[⟨"destroyer", "Destroyer", 2, [⟨0, 0⟩, ⟨1, 0⟩], 0, false⟩], [], []⟩),
          ("B", ⟨[⟨"destroyer", "Destroyer", 2, [⟨0, 0⟩, ⟨1, 0⟩], 2, true⟩],
            [⟨0, 0⟩, ⟨1, 0⟩], []⟩)],
        gameStats := [("A", ⟨2, 2, 0⟩), ("B", ⟨0, 0, 0⟩)] } : GameRoom).status = .finished ∧
      ({ exampleAlmostWonRoom with
        status := .finished, winnerId := some "A", currentTurn := some "B",
        boards := [("A", ⟨[⟨"destroyer", "Destroyer", 2, [⟨0, 0⟩, ⟨1, 0⟩], 0, false⟩], [], []⟩),
          ("B", ⟨[⟨"destroyer", "Destroyer", 2, [⟨0, 0⟩, ⟨1, 0⟩], 2, true⟩],
            [⟨0, 0⟩, ⟨1, 0⟩], []⟩)],
        gameStats := [("A", ⟨2, 2, 0⟩), ("B", ⟨0, 0, 0⟩)] } : GameRoom).winnerId = some "A") ∧
    (({ exampleNoShipsRoom with
        currentTurn := some "B",
        boards := [("A", ⟨[⟨"destroyer", "Destroyer", 2, [⟨0, 0⟩, ⟨1, 0⟩], 0, false⟩], [], []⟩),
          ("B", ⟨[], [], [⟨3, 3⟩]⟩)],
        gameStats := [("A", ⟨1, 0, 1⟩), ("B", ⟨0, 0, 0⟩)] } : GameRoom).status =
        exampleNoShipsRoom.status ∧
      ({ exampleNoShipsRoom with
        currentTurn := some "B",
        boards := [("A", ⟨[⟨"destroyer", "Destroyer", 2, [⟨0, 0⟩, ⟨1, 0⟩], 0, false⟩], [], []⟩),
          ("B", ⟨[], [], [⟨3, 3⟩]⟩)],
        gameStats := [("A", ⟨1, 0, 1⟩), ("B", ⟨0, 0, 0⟩)] } : GameRoom).winnerId =
        exampleNoShipsRoom.winnerId) ∧
    fireShot exampleWaitingRoom "p1" ⟨0, 0⟩ = .error .notPlaying :=
  ⟨claim_C4.1 exampleAlmostWonRoom "A" ⟨1, 0⟩ _
     ⟨⟨1, 0⟩, .sunk, some "Destroyer", some "destroyer", "A", "B"⟩ (by decide) (by decide)
     ⟨[⟨"destroyer", "Destroyer", 2, [⟨0, 0⟩, ⟨1, 0⟩], 2, true⟩], [⟨0, 0⟩, ⟨1, 0⟩], []⟩
     (by decide) (by decide),
   claim_C4.2.1 exampleNoShipsRoom "A" ⟨3, 3⟩ _
     ⟨⟨3, 3⟩, .miss, none, none, "A", "B"⟩ "B" ⟨[], [], []⟩
     (by decide) (by decide) (by decide) (by decide),
   claim_C4.2.2.2.1 exampleWaitingRoom "p1" ⟨0, 0⟩ (by decide)⟩

theorem findIdx?_isSome_of_exists {α : Type} (p : α → Bool) :
    ∀ l : List α, (∃ x ∈ l, p x = true) → ∃ j, l.findIdx? p = some j := by
  intro l
  induction l with
  | nil => rintro ⟨x, hx, -⟩; exact absurd hx (by simp)
  | cons a rest ih =>
    rintro ⟨x, hx, hpx⟩
    by_cases hpa : p a = true
    · exact ⟨0, by simp [List.findIdx?_cons, hpa]⟩
    · rcases List.mem_cons.mp hx with rfl | hx2
      · exact absurd hpx hpa
      · obtain ⟨j, hj⟩ := ih ⟨x, hx2, hpx⟩
        exact ⟨j + 1, by simp [List.findIdx?_cons, hpa, hj]⟩

/-- Claim C10: frame property of a successful `fireShot` — the room code,
player identities, ready flags and the creation/start timestamps are
unchanged; every board except the defender's and every stat entry except
the shooter's are unchanged; the defender board gains the coordinate in
exactly one of its hit/miss lists, with exactly one ship replaced by its
`updateShipAfterHit` copy on a hit (which changes only `hits` and possibly
`isSunk`) and ships untouched on a miss; the shooter's shot counter and
exactly one of its hit/miss counters are incremented; the turn flips to
the defender; and status/winner are unchanged except for a winning hit,
which sets `'finished'` and the shooter. -/
theorem claim_C10 (room : GameRoom) (s : String) (c : Coordinate)
    (h : (fireShot room s c).isOk = true) :
    (fireShotPost room s c).roomCode = room.roomCode ∧
    (fireShotPost room s c).player1Id = room.player1Id ∧
    (fireShotPost room s c).player2Id = room.player2Id ∧
    (fireShotPost room s c).playersReady = room.playersReady ∧
    (fireShotPost room s c).createdAt = room.createdAt ∧
    (fireShotPost room s c).startedAt = room.startedAt ∧
    ∃ dId dB st, defenderIdOf room s = some dId ∧
      lookupM room.boards dId = some dB ∧ lookupM room.gameStats s = some st ∧
      (fireShotPost room s c).currentTurn = some dId ∧
      (∀ k, k ≠ dId → lookupM (fireShotPost room s c).boards k = lookupM room.boards k) ∧
      (∀ k, k ≠ s → lookupM (fireShotPost room s c).gameStats k = lookupM room.gameStats k) ∧
      (((fireShotPost room s c).status = room.status ∧
          (fireShotPost room s c).winnerId = room.winnerId) ∨
        ((fireShotPost room s c).status = .finished ∧
          (fireShotPost room s c).winnerId = some s)) ∧
      ∃ b2 st2, lookupM (fireShotPost room s c).boards dId = some b2 ∧
        lookupM (fireShotPost room s c).gameStats s = some st2 ∧
        st2.shots = st.shots + 1 ∧
        ((∃ hitShip j, checkHit c dB.ships = some hitShip ∧
            dB.ships.findIdx? (fun sh => sh.id = hitShip.id) = some j ∧
            b2.ships = dB.ships.set j (updateShipAfterHit hitShip) ∧
            updateShipAfterHit hitShip =
              { hitShip with
                hits := hitShip.hits + 1
                isSunk := if hitShip.hits + 1 ≥ hitShip.size then true else hitShip.isSunk } ∧
            b2.hits = dB.hits ++ [c] ∧ b2.misses = dB.misses ∧
            st2.hits = st.hits + 1 ∧ st2.misses = st.misses) ∨
         (b2.ships = dB.ships ∧ b2.hits = dB.hits ∧ b2.misses = dB.misses ++ [c] ∧
          st2.hits = st.hits ∧ st2.misses = st.misses + 1 ∧
          (fireShotPost room s c).status = room.status ∧
          (fireShotPost room s c).winnerId = room.winnerId)) := by
  cases hfs : fireShot room s c with
  | error e => rw [hfs] at h; simp [Except.isOk, Except.toBool] at h
  | ok pr =>
    obtain ⟨room2, res⟩ := pr
    have hpost : fireShotPost room s c = room2 := by unfold fireShotPost; rw [hfs]
    rw [hpost]
    obtain ⟨hst, hturn, dId, dB, st, hd, hb, hstats, hrep, hatk, hdef, hcoord, hctn,
      hrc, hp1, hp2x, hready, hca, hsa, hdis⟩ :=
      fireShot_ok_inv room s c room2 res hfs
    refine ⟨hrc, hp1, hp2x, hready, hca, hsa, dId, dB, st, hd, hb, hstats, hctn, ?_⟩
    rcases hdis with ⟨hitShip, hch, hresk, ships2, hships2, hbd, hgs, hstq, hwq⟩ |
      ⟨hchn, hresm, hbd, hgs, hstq, hwq⟩
    · have hfind : ∃ j, dB.ships.findIdx? (fun sh => sh.id = hitShip.id) = some j := by
        apply findIdx?_isSome_of_exists
        refine ⟨hitShip, List.mem_of_find?_eq_some hch, by simp⟩
      obtain ⟨j, hj⟩ := hfind
      have hships2j : ships2 = dB.ships.set j (updateShipAfterHit hitShip) := by
        rw [hships2, hj]
      refine ⟨?_, ?_, ?_, ?_⟩
      · intro k hk
        rw [hbd, lookupM_setK_ne _ _ _ _ hk]
      · intro k hk
        rw [hgs, lookupM_setK_ne _ _ _ _ hk]
      · by_cases hw : allShipsSunk ships2 = true
        · right
          constructor
          · rw [hstq, hw]; rfl
          · rw [hwq, hw]; rfl
        · left
          rw [eq_false_of_ne_true hw] at hstq hwq
          exact ⟨by rw [hstq]; rfl, by rw [hwq]; rfl⟩
      · refine ⟨⟨ships2, dB.hits ++ [c], dB.misses⟩, ⟨st.shots + 1, st.hits + 1, st.misses⟩,
          by rw [hbd, lookupM_setK_self], by rw [hgs, lookupM_setK_self], rfl, ?_⟩
        left
        exact ⟨hitShip, j, hch, hj, hships2j, rfl, rfl, rfl, rfl, rfl⟩
    · refine ⟨?_, ?_, Or.inl ⟨hstq, hwq⟩, ?_⟩
      · intro k hk
        rw [hbd, lookupM_setK_ne _ _ _ _ hk]
      · intro k hk
        rw [hgs, lookupM_setK_ne _ _ _ _ hk]
      · refine ⟨⟨dB.ships, dB.hits, dB.misses ++ [c]⟩, ⟨st.shots + 1, st.hits, st.misses + 1⟩,
          by rw [hbd, lookupM_setK_self], by rw [hgs, lookupM_setK_self], rfl, ?_⟩
        right
        exact ⟨rfl, rfl, rfl, rfl, rfl, hstq, hwq⟩

theorem claim_C10_witness :
    (fireShotPost exampleRepeatRoom "A" ⟨9, 9⟩).roomCode = exampleRepeatRoom.roomCode ∧
    (fireShotPost exampleRepeatRoom "A" ⟨9, 9⟩).player1Id = exampleRepeatRoom.player1Id ∧
    (fireShotPost exampleRepeatRoom "A" ⟨9, 9⟩).player2Id = exampleRepeatRoom.player2Id ∧
    (fireShotPost exampleRepeatRoom "A" ⟨9, 9⟩).playersReady = exampleRepeatRoom.playersReady ∧
    (fireShotPost exampleRepeatRoom "A" ⟨9, 9⟩).createdAt = exampleRepeatRoom.createdAt ∧
    (fireShotPost exampleRepeatRoom "A" ⟨9, 9⟩).startedAt = exampleRepeatRoom.startedAt ∧
    ∃ dId dB st, defenderIdOf exampleRepeatRoom "A" = some dId ∧
      lookupM exampleRepeatRoom.boards dId = some dB ∧
      lookupM exampleRepeatRoom.gameStats "A" = some st ∧
      (fireShotPost exampleRepeatRoom "A" ⟨9, 9⟩).currentTurn = some dId ∧
      (∀ k, k ≠ dId →
        lookupM (fireShotPost exampleRepeatRoom "A" ⟨9, 9⟩).boards k =
          lookupM exampleRepeatRoom.boards k) ∧
      (∀ k, k ≠ "A" →
        lookupM (fireShotPost exampleRepeatRoom "A" ⟨9, 9⟩).gameStats k =
          lookupM exampleRepeatRoom.gameStats k) ∧
      (((fireShotPost exampleRepeatRoom "A" ⟨9, 9⟩).status = exampleRepeatRoom.status ∧
          (fireShotPost exampleRepeatRoom "A" ⟨9, 9⟩).winnerId = exampleRepeatRoom.winnerId) ∨
        ((fireShotPost exampleRepeatRoom "A" ⟨9, 9⟩).status = .finished ∧
          (fireShotPost exampleRepeatRoom "A" ⟨9, 9⟩).winnerId = some "A")) ∧
      ∃ b2 st2, lookupM (fireShotPost exampleRepeatRoom "A" ⟨9, 9⟩).boards dId = some b2 ∧
        lookupM (fireShotPost exampleRepeatRoom "A" ⟨9, 9⟩).gameStats "A" = some st2 ∧
        st2.shots = st.shots + 1 ∧
        ((∃ hitShip j, checkHit ⟨9, 9⟩ dB.ships = some hitShip ∧
            dB.ships.findIdx? (fun sh => sh.id = hitShip.id) = some j ∧
            b2.ships = dB.ships.set j (updateShipAfterHit hitShip) ∧
            updateShipAfterHit hitShip =
              { hitShip with
                hits := hitShip.hits + 1
                isSunk := if hitShip.hits + 1 ≥ hitShip.size then true else hitShip.isSunk } ∧
            b2.hits = dB.hits ++ [⟨9, 9⟩] ∧ b2.misses = dB.misses ∧
            st2.hits = st.hits + 1 ∧ st2.misses = st.misses) ∨
         (b2.ships = dB.ships ∧ b2.hits = dB.hits ∧ b2.misses = dB.misses ++ [⟨9, 9⟩] ∧
          st2.hits = st.hits ∧ st2.misses = st.misses + 1 ∧
          (fireShotPost exampleRepeatRoom "A" ⟨9, 9⟩).status = exampleRepeatRoom.status ∧
          (fireShotPost exampleRepeatRoom "A" ⟨9, 9⟩).winnerId = exampleRepeatRoom.winnerId)) :=
  claim_C10 exampleRepeatRoom "A" ⟨9, 9⟩ (by decide)

end Battleship
